import Mathlib

/-!
Verification development for the persistence layer of saythanks.io
(`saythanks/storage.py`): the `Note` and `Inbox` storage models.

The relational store is embedded shallowly: a `DB` value carries the two
tables (`notes`, `inboxes`) as lists of rows in insertion order, together
with the schema facts and connection conditions the code branches on
(presence of the optional `audio_path` column, the aborted-transaction
condition `25P02`).  Each Python method becomes a Lean function on `DB`;
methods that can raise return `Except PyError`.  SQL row sets are read in
insertion order; `ORDER BY timestamp DESC` is insertion sort by the
`timestamp` column, descending; `LIKE` is modelled character by character
including its `%` and `_` wildcards and backslash escapes.  Python-level
behaviours the code relies on are kept: the offset `(page-1)*page_size`
is a signed integer (negative at `page = 0`, which the database rejects),
and `if self.audio_path:` is a truthiness test (both `None` and the empty
string are falsy).
-/

/-- Python-level failure conditions that the storage layer can surface:
`indexError` models `r[0]` on an empty result list, `unboundLocalError`
models the use of a never-assigned local variable, `zeroDivisionError`
models `//` by zero, and `dbError` a statement the database itself
rejects (such as a negative `OFFSET`), surfacing as a driver error.
`notFound` is the distinct "not found" condition the spec's error
taxonomy asks for; the source never raises it. -/
inductive PyError where
  | indexError
  | unboundLocalError
  | zeroDivisionError
  | dbError
  | notFound
deriving Repr, DecidableEq

instance {ε α : Type} [DecidableEq ε] [DecidableEq α] : DecidableEq (Except ε α) := fun a b =>
  match a, b with
  | .ok x, .ok y =>
    if h : x = y then .isTrue (by rw [h]) else .isFalse (by intro hc; cases hc; exact h rfl)
  | .ok _, .error _ => .isFalse (by intro hc; cases hc)
  | .error _, .ok _ => .isFalse (by intro hc; cases hc)
  | .error x, .error y =>
    if h : x = y then .isTrue (by rw [h]) else .isFalse (by intro hc; cases hc; exact h rfl)

/-- A row of the `notes` table:
`notes(uuid pk, body, byline, inboxes_auth_id fk, archived bool, timestamp, audio_path optional)`. -/
structure NoteRow where
  uuid : Nat
  body : String
  byline : String
  inboxes_auth_id : String
  archived : Bool
  timestamp : Int
  audio_path : Option String
deriving Repr, DecidableEq

/-- A row of the `inboxes` table:
`inboxes(slug unique, auth_id unique, email, email_enabled bool, enabled bool)`. -/
structure InboxRow where
  slug : String
  auth_id : String
  email : String
  email_enabled : Bool
  enabled : Bool
deriving Repr, DecidableEq

/-- The shared database connection's visible state.  `notes` and `inboxes`
hold the rows in insertion order.  `hasAudioColumn` is what the
`information_schema` probe in `Note.store` reports.  `inFailedTransaction`
models the `25P02` (in-failed-sql-transaction) condition a statement can
hit.  `nextUuid` and `now` model the storage-assigned defaults for `uuid`
and `timestamp`; `defaultEmailEnabled`/`defaultEnabled` are the schema
defaults for the two inbox flags, which the registration insert leaves to
the database. -/
structure DB where
  notes : List NoteRow
  inboxes : List InboxRow
  hasAudioColumn : Bool
  inFailedTransaction : Bool
  nextUuid : Nat
  now : Int
  defaultEmailEnabled : Bool
  defaultEnabled : Bool
deriving Repr, DecidableEq

/-- The in-memory `Note` object.  `Note.__init__` sets every attribute to
`None`, so each field is an `Option`; methods fill in only the fields the
Python code assigns. -/
structure NoteObj where
  body : Option String
  byline : Option String
  inbox : Option String
  archived : Option Bool
  uuid : Option Nat
  timestamp : Option Int
  audio_path : Option String
deriving Repr, DecidableEq

/-- The in-memory `Inbox` object: `Inbox.__init__` stores only the slug. -/
structure InboxObj where
  slug : String
deriving Repr, DecidableEq

/-- The dictionary returned by `Inbox.notes` / `Inbox.search_notes`. -/
structure NotesPage where
  notes : List NoteObj
  total_notes : Nat
  page : Nat
  total_pages : Nat
deriving Repr, DecidableEq

/-- Python `//` on naturals, raising `ZeroDivisionError` on a zero divisor,
as in the `total_pages` computation. -/
def pydiv (a b : Nat) : Except PyError Nat :=
  if b = 0 then .error .zeroDivisionError else .ok (a / b)

/-- `SELECT * FROM inboxes WHERE slug=:inbox` followed by `r[0]['auth_id']`:
the `Inbox.auth_id` property.  An unregistered slug gives an empty result
list, so `r[0]` raises `IndexError`. -/
def Inbox.auth_id (db : DB) (slug : String) : Except PyError String :=
  match db.inboxes.filter (fun r => r.slug == slug) with
  | [] => .error .indexError
  | r :: _ => .ok r.auth_id

/-- `Note.fetch`: `SELECT * FROM notes WHERE uuid=:uuid`, then populate
`body`, `byline` and `uuid` from `r[0]`.  The remaining attributes keep the
`None` from `__init__`; an unknown uuid raises `IndexError` at `r[0]`. -/
def Note.fetch (db : DB) (uuid : Nat) : Except PyError NoteObj :=
  match db.notes.filter (fun r => r.uuid == uuid) with
  | [] => .error .indexError
  | r :: _ =>
    .ok { body := some r.body, byline := some r.byline, inbox := none, archived := none,
          uuid := some uuid, timestamp := none, audio_path := none }

/-- `Note.from_inbox`: build an in-memory note bound to an inbox slug. -/
def Note.from_inbox (inbox : String) (body byline : String) (archived : Bool)
    (uuid : Option Nat) (timestamp : Option Int) (audio_path : Option String) : NoteObj :=
  { body := some body, byline := some byline, inbox := some inbox, archived := some archived,
    uuid := uuid, timestamp := timestamp, audio_path := audio_path }

/-- Python truthiness of an optional string, as tested by
`if self.audio_path:` — both `None` and the empty string are falsy. -/
def pyTruthy (o : Option String) : Bool :=
  match o with
  | none => false
  | some s => !(s == "")

/-- `Note.store`: probe `information_schema` for the `audio_path` column and
branch.  Column present and a truthy audio path (`if self.audio_path:`):
insert including `audio_path`.  Column absent: log and insert without it.
Column present but falsy audio path (`None` or the empty string): neither
`q` nor `params` is ever assigned, so the later `sqlalchemy.text(q)` raises
`UnboundLocalError`, which the `except` clause logs and re-raises.
Building `params` reads `self.inbox.auth_id`, so an unregistered slug
raises there (logged, re-raised).  On success the database assigns `uuid`
(returned) and the default `timestamp` and `archived = false`. -/
def Note.store (db : DB) (slug : String) (body byline : String)
    (audio_path : Option String) : Except PyError (DB × Nat) :=
  if db.hasAudioColumn then
    if pyTruthy audio_path then do
      let aid ← Inbox.auth_id db slug
      let row : NoteRow :=
        { uuid := db.nextUuid, body := body, byline := byline, inboxes_auth_id := aid,
          archived := false, timestamp := db.now, audio_path := audio_path }
      .ok ({ db with notes := db.notes ++ [row], nextUuid := db.nextUuid + 1 }, db.nextUuid)
    else .error .unboundLocalError
  else do
    let aid ← Inbox.auth_id db slug
    let row : NoteRow :=
      { uuid := db.nextUuid, body := body, byline := byline, inboxes_auth_id := aid,
        archived := false, timestamp := db.now, audio_path := none }
    .ok ({ db with notes := db.notes ++ [row], nextUuid := db.nextUuid + 1 }, db.nextUuid)

/-- `Inbox.submit_note`: `Note.from_inbox(self.slug, body, byline,
audio_path=audio_path)` (so `archived=False`, `uuid=None`), then
`note.store()` which sets `note.uuid` to the generated id. -/
def Inbox.submit_note (db : DB) (slug : String) (body byline : String)
    (audio_path : Option String) : Except PyError (DB × NoteObj) := do
  let (db2, u) ← Note.store db slug body byline audio_path
  .ok (db2, { Note.from_inbox slug body byline false none none audio_path with uuid := some u })

/-- `Inbox.store`: `INSERT INTO inboxes (slug, auth_id, email)`; a
`UniqueViolation` (either unique column already present) is caught and
logged, and in every case `cls(slug)` is returned.  The two flag columns
are left to their schema defaults. -/
def Inbox.store (db : DB) (slug auth_id email : String) : DB × InboxObj :=
  if db.inboxes.any (fun r => r.slug == slug || r.auth_id == auth_id) then
    (db, { slug := slug })
  else
    ({ db with inboxes := db.inboxes ++
        [{ slug := slug, auth_id := auth_id, email := email,
           email_enabled := db.defaultEmailEnabled, enabled := db.defaultEnabled }] },
     { slug := slug })

/-- `Inbox.is_email_enabled`: `SELECT email_enabled FROM inboxes WHERE slug`
inside a `try` that catches only `InFailedSqlTransaction` and returns
`False`.  On a healthy connection, `r[0]` on an unknown slug still raises
`IndexError` (uncaught). -/
def Inbox.is_email_enabled (db : DB) (slug : String) : Except PyError Bool :=
  if db.inFailedTransaction then .ok false
  else
    match db.inboxes.filter (fun r => r.slug == slug) with
    | [] => .error .indexError
    | r :: _ => .ok r.email_enabled

/-- `Inbox.is_enabled`: like `Inbox.is_email_enabled` but for the `enabled`
column; `if not r[0]['enabled']: return False / return bool(...)` collapses
to returning the stored boolean. -/
def Inbox.is_enabled (db : DB) (slug : String) : Except PyError Bool :=
  if db.inFailedTransaction then .ok false
  else
    match db.inboxes.filter (fun r => r.slug == slug) with
    | [] => .error .indexError
    | r :: _ => .ok r.enabled

/-- `update inboxes set email_enabled = false where slug = :slug`. -/
def Inbox.disable_email (db : DB) (slug : String) : DB :=
  { db with inboxes := db.inboxes.map (fun r =>
      if r.slug == slug then { r with email_enabled := false } else r) }

/-- `update inboxes set email_enabled = true where slug = :slug`. -/
def Inbox.enable_email (db : DB) (slug : String) : DB :=
  { db with inboxes := db.inboxes.map (fun r =>
      if r.slug == slug then { r with email_enabled := true } else r) }

/-- `update inboxes set enabled = false where slug = :slug`. -/
def Inbox.disable_account (db : DB) (slug : String) : DB :=
  { db with inboxes := db.inboxes.map (fun r =>
      if r.slug == slug then { r with enabled := false } else r) }

/-- `update inboxes set enabled = true where slug = :slug`. -/
def Inbox.enable_account (db : DB) (slug : String) : DB :=
  { db with inboxes := db.inboxes.map (fun r =>
      if r.slug == slug then { r with enabled := true } else r) }

/-- The `WHERE inboxes_auth_id = :auth_id AND archived = 'f'` row filter
shared by the count and select of `Inbox.notes`. -/
def activeRows (db : DB) (aid : String) : List NoteRow :=
  db.notes.filter (fun r => r.inboxes_auth_id == aid && !r.archived)

/-- `ORDER BY timestamp DESC`: sort rows by timestamp, most recent first
(ties in an engine-chosen order, here the insertion-sort order). -/
def orderByTsDesc (l : List NoteRow) : List NoteRow :=
  List.insertionSort (fun a b => b.timestamp ≤ a.timestamp) l

/-- The `Note.from_inbox(self.slug, body, byline, archived, uuid,
timestamp)` call used by `Inbox.notes` / `Inbox.search_notes` to wrap a
fetched row (no audio path is passed). -/
def rowToListedNote (slug : String) (r : NoteRow) : NoteObj :=
  Note.from_inbox slug r.body r.byline r.archived (some r.uuid) (some r.timestamp) none

/-- `Inbox.notes`: `offset = (page-1)*page_size` (a Python int, negative
when `page = 0`); one `COUNT(*)` of the non-archived rows of this inbox,
one `SELECT ... ORDER BY timestamp DESC LIMIT :page_size OFFSET :offset`
— which the database rejects when the offset is negative — and
`total_pages = (total_notes + page_size - 1) // page_size`. -/
def Inbox.notes (db : DB) (slug : String) (page page_size : Nat) :
    Except PyError NotesPage := do
  let aid ← Inbox.auth_id db slug
  let offset : Int := ((page : Int) - 1) * (page_size : Int)
  let total_notes := (activeRows db aid).length
  if offset < 0 then .error .dbError
  else
    let rows := ((orderByTsDesc (activeRows db aid)).drop offset.toNat).take page_size
    let total_pages ← pydiv (total_notes + page_size - 1) page_size
    .ok { notes := rows.map (rowToListedNote slug), total_notes := total_notes,
          page := page, total_pages := total_pages }

/-- Lowercasing as applied by SQL `LOWER(...)` and Python `.lower()`. -/
def sqlLower (s : String) : List Char :=
  s.toList.map Char.toLower

/-- One element of a SQL `LIKE` pattern: `%` (any sequence), `_` (any one
character), or a literal character. -/
inductive LikeTok where
  | any
  | one
  | lit (c : Char)
deriving Repr, DecidableEq

/-- Classify an unescaped `LIKE` pattern character. -/
def tokOf (c : Char) : LikeTok :=
  if c = '%' then .any else if c = '_' then .one else .lit c

/-- Read a `LIKE` pattern (PostgreSQL dialect): a backslash escapes the
following pattern character, every other character stands for itself, with
`%` and `_` as the wildcards. -/
def likeLex : List Char → List LikeTok
  | [] => []
  | [c] => if c = '\\' then [] else [tokOf c]
  | c :: e :: ps =>
    if c = '\\' then .lit e :: likeLex ps
    else tokOf c :: likeLex (e :: ps)

/-- Match one `LIKE` pattern element against the text, with `k` matching
the rest of the pattern: `%` lets the rest resume at any suffix of the
text, `_` consumes one character, a literal consumes exactly itself. -/
def tokMatcher : LikeTok → (List Char → Bool) → List Char → Bool
  | .any, k, t => t.tails.any k
  | .one, k, t =>
    match t with
    | [] => false
    | _ :: ts => k ts
  | .lit c, k, t =>
    match t with
    | [] => false
    | b :: ts => b = c && k ts

/-- Match a whole sequence of `LIKE` pattern elements; the exhausted
pattern matches only the exhausted text. -/
def likeToksMatch (toks : List LikeTok) : List Char → Bool :=
  toks.foldr tokMatcher (fun t => t.isEmpty)

/-- SQL `LIKE` pattern matching as used in the search query. -/
def likeMatch (pat text : List Char) : Bool :=
  likeToksMatch (likeLex pat) text

/-- The pattern `'%' || :param || '%'` with `param = search_str.lower()`. -/
def sqlPattern (s : String) : List Char :=
  '%' :: (sqlLower s ++ ['%'])

/-- The `WHERE` clause of `Inbox.search_notes`: case-insensitive `LIKE`
against body or byline, restricted to this inbox's non-archived rows. -/
def searchRows (db : DB) (aid : String) (s : String) : List NoteRow :=
  db.notes.filter (fun r =>
    (likeMatch (sqlPattern s) (sqlLower r.body) || likeMatch (sqlPattern s) (sqlLower r.byline))
    && r.inboxes_auth_id == aid && !r.archived)

/-- `Inbox.search_notes`: one query computing the filtered rows with
`COUNT(*) OVER()` as `total_notes`, ordered by timestamp descending and
sliced by `LIMIT`/`OFFSET`.  `total_notes` is read from the first returned
row and is `0` when the requested page is empty; a negative offset
(`page = 0`) makes the database reject the statement; `total_pages` is the
same `//` computation as in `Inbox.notes`. -/
def Inbox.search_notes (db : DB) (slug search_str : String) (page page_size : Nat) :
    Except PyError NotesPage := do
  let aid ← Inbox.auth_id db slug
  let offset : Int := ((page : Int) - 1) * (page_size : Int)
  if offset < 0 then .error .dbError
  else
    let filtered := orderByTsDesc (searchRows db aid search_str)
    let rows := (filtered.drop offset.toNat).take page_size
    let total_notes := if rows.isEmpty then 0 else filtered.length
    let total_pages ← pydiv (total_notes + page_size - 1) page_size
    .ok { notes := rows.map (rowToListedNote slug), total_notes := total_notes,
          page := page, total_pages := total_pages }

/-- The `archived = 't'` row filter of `Inbox.archived_notes`. -/
def archivedRows (db : DB) (aid : String) : List NoteRow :=
  db.notes.filter (fun r => r.inboxes_auth_id == aid && r.archived)

/-- The `Note.from_inbox(self.slug, body, byline, archived, uuid)` call of
`Inbox.archived_notes` (neither timestamp nor audio path is passed). -/
def rowToArchivedNote (slug : String) (r : NoteRow) : NoteObj :=
  Note.from_inbox slug r.body r.byline r.archived (some r.uuid) none none

/-- `Inbox.archived_notes`: `SELECT * ... archived = 't'` with no
`ORDER BY` (rows come back in insertion order), wrapped and then reversed
by `notes[::-1]`. -/
def Inbox.archived_notes (db : DB) (slug : String) : Except PyError (List NoteObj) := do
  let aid ← Inbox.auth_id db slug
  .ok (((archivedRows db aid).map (rowToArchivedNote slug)).reverse)

/-- A character sequence free of `LIKE` metacharacters. -/
def noMetaL (l : List Char) : Bool :=
  l.all (fun c => !(c == '%' || c == '_' || c == '\\'))

/-- Modelled from the spec's phrase "case-insensitive substring match
against body OR byline": `s` occurs in `t` ignoring case. -/
def containsCI (s t : String) : Prop :=
  sqlLower s <:+: sqlLower t

instance (s t : String) : Decidable (containsCI s t) := by
  unfold containsCI
  infer_instance

instance : IsTotal NoteRow (fun a b => b.timestamp ≤ a.timestamp) :=
  ⟨fun a b => le_total b.timestamp a.timestamp⟩

instance : IsTrans NoteRow (fun a b => b.timestamp ≤ a.timestamp) :=
  ⟨fun _ _ _ hab hbc => le_trans hbc hab⟩

/-- The `notes` list of a result page, `[]` when the call failed. -/
def pageNotes (db : DB) (slug : String) (page page_size : Nat) : List NoteObj :=
  match Inbox.notes db slug page page_size with
  | .ok r => r.notes
  | .error _ => []

def specSearchRows (db : DB) (aid s : String) : List NoteRow :=
  db.notes.filter (fun r =>
    (decide (containsCI s r.body) || decide (containsCI s r.byline))
    && r.inboxes_auth_id == aid && !r.archived)

def storedRow (db : DB) (body byline aid : String) (ap : Option String) : NoteRow :=
  { uuid := db.nextUuid, body := body, byline := byline, inboxes_auth_id := aid,
    archived := false, timestamp := db.now, audio_path := ap }

def inboxFrame (r : InboxRow) : String × String × String × Bool :=
  (r.slug, r.auth_id, r.email, r.email_enabled)

/-! ### Concrete sample data used by witnesses and counterexamples -/

def aliceRow : InboxRow :=
  { slug := "alice", auth_id := "a1", email := "alice@example.com",
    email_enabled := false, enabled := true }

def noteRow1 : NoteRow :=
  { uuid := 1, body := "Thanks!", byline := "Bob", inboxes_auth_id := "a1",
    archived := false, timestamp := 10, audio_path := none }

def noteRow2 : NoteRow :=
  { uuid := 2, body := "xyz stuff", byline := "Carol", inboxes_auth_id := "a1",
    archived := false, timestamp := 20, audio_path := none }

def noteRow3 : NoteRow :=
  { uuid := 3, body := "old ABCDEF", byline := "Dan", inboxes_auth_id := "a1",
    archived := false, timestamp := 5, audio_path := none }

def noteRow4 : NoteRow :=
  { uuid := 4, body := "gone", byline := "Eve", inboxes_auth_id := "a1",
    archived := true, timestamp := 30, audio_path := none }

/-- A small populated store: one registered inbox, three active notes (in
non-chronological insertion order) and one archived note. -/
def sampleDB : DB :=
  { notes := [noteRow1, noteRow2, noteRow3, noteRow4], inboxes := [aliceRow],
    hasAudioColumn := false, inFailedTransaction := false, nextUuid := 5, now := 100,
    defaultEmailEnabled := true, defaultEnabled := true }

/-- `sampleDB` with the optional audio column present in the schema. -/
def audioDB : DB :=
  { sampleDB with hasAudioColumn := true }

/-- `sampleDB` with the connection in the aborted-transaction state. -/
def failedDB : DB :=
  { sampleDB with inFailedTransaction := true }

def noteRow5 : NoteRow :=
  { uuid := 11, body := "first", byline := "Fay", inboxes_auth_id := "a1",
    archived := true, timestamp := 1, audio_path := none }

def noteRow6 : NoteRow :=
  { uuid := 12, body := "second", byline := "Gil", inboxes_auth_id := "a1",
    archived := false, timestamp := 2, audio_path := none }

def noteRow7 : NoteRow :=
  { uuid := 13, body := "third", byline := "Hal", inboxes_auth_id := "a1",
    archived := true, timestamp := 3, audio_path := none }

/-- A store whose notes were inserted in timestamp order, two archived. -/
def tsDB : DB :=
  { sampleDB with notes := [noteRow5, noteRow6, noteRow7] }

/-- The row `Inbox.submit_note sampleDB "alice" "hello" "zed"` inserts. -/
def submitRow : NoteRow :=
  { uuid := 5, body := "hello", byline := "zed", inboxes_auth_id := "a1",
    archived := false, timestamp := 100, audio_path := none }

/-- The database after that submission. -/
def submitDB : DB :=
  { sampleDB with notes := sampleDB.notes ++ [submitRow], nextUuid := 6 }

/-- The in-memory note that submission returns. -/
def submitNote : NoteObj :=
  { body := some "hello", byline := some "zed", inbox := some "alice",
    archived := some false, uuid := some 5, timestamp := none, audio_path := none }

/-! ### Helper lemmas: ordering, pagination arithmetic -/

theorem orderByTsDesc_perm (l : List NoteRow) : (orderByTsDesc l).Perm l :=
  List.perm_insertionSort _ l

theorem orderByTsDesc_sorted (l : List NoteRow) :
    (orderByTsDesc l).Pairwise (fun a b => b.timestamp ≤ a.timestamp) :=
  List.sorted_insertionSort _ l

theorem orderByTsDesc_length (l : List NoteRow) : (orderByTsDesc l).length = l.length :=
  (orderByTsDesc_perm l).length_eq

theorem pydiv_pos (a b : Nat) (hb : 0 < b) : pydiv a b = .ok (a / b) := by
  unfold pydiv
  rw [if_neg (Nat.pos_iff_ne_zero.mp hb)]

/-- Splitting a list into consecutive chunks of size `P` at offsets
`0, P, 2P, ...` for `(length + P - 1) / P` chunks, and concatenating them,
gives the list back. -/
theorem pages_concat {α : Type} (P : Nat) (hP : 0 < P) :
    ∀ (n : Nat) (l : List α), l.length ≤ n →
      ((List.range ((l.length + P - 1) / P)).map (fun i => (l.drop (i * P)).take P)).flatten = l := by
  intro n
  induction n with
  | zero =>
    intro l hl
    have h0 : l = [] := List.eq_nil_of_length_eq_zero (Nat.le_zero.mp hl)
    subst h0
    have hz : (([] : List α).length + P - 1) / P = 0 := Nat.div_eq_of_lt (by simp; omega)
    rw [hz]
    simp
  | succ n ih =>
    intro l hl
    rcases l with _ | ⟨a, l2⟩
    · have hz : (([] : List α).length + P - 1) / P = 0 := Nat.div_eq_of_lt (by simp; omega)
      rw [hz]
      simp
    · have hm1 : 1 ≤ (a :: l2).length := by simp
      have key : ((a :: l2).length + P - 1) / P = ((a :: l2).length - 1) / P + 1 := by
        rw [show (a :: l2).length + P - 1 = ((a :: l2).length - 1) + P by omega,
          Nat.add_div_right _ hP]
      have key2 : (((a :: l2).drop P).length + P - 1) / P = ((a :: l2).length - 1) / P := by
        rw [List.length_drop]
        rcases Nat.le_total (a :: l2).length P with h | h
        · rw [show (a :: l2).length - P = 0 by omega]
          rw [show 0 + P - 1 = P - 1 by omega, Nat.div_eq_of_lt (by omega),
            Nat.div_eq_of_lt (by omega)]
        · rw [show (a :: l2).length - P + P - 1 = (a :: l2).length - 1 by omega]
      have ihl : ((List.range ((((a :: l2).drop P).length + P - 1) / P)).map
          (fun i => (((a :: l2).drop P).drop (i * P)).take P)).flatten = (a :: l2).drop P := by
        apply ih
        rw [List.length_drop]
        simp only [List.length_cons] at hl ⊢
        omega
      rw [key2] at ihl
      rw [key, List.range_succ_eq_map, List.map_cons, List.map_map, List.flatten_cons]
      have htail : ((List.range (((a :: l2).length - 1) / P)).map
          ((fun i => ((a :: l2).drop (i * P)).take P) ∘ Nat.succ)).flatten = (a :: l2).drop P := by
        rw [← ihl]
        congr 1
        apply List.map_congr_left
        intro i _
        simp only [Function.comp_apply]
        rw [List.drop_drop, Nat.succ_mul, Nat.add_comm (i * P) P]
      rw [htail]
      simp only [Nat.zero_mul, List.drop_zero]
      exact List.take_append_drop P (a :: l2)

/-! ### LIKE patterns built from a metacharacter-free search string are
plain substring tests -/

theorem likeLex_cons_ne (c : Char) (rest : List Char) (h1 : c ≠ '\\') (hne : rest ≠ []) :
    likeLex (c :: rest) = tokOf c :: likeLex rest := by
  rcases rest with _ | ⟨e, ps⟩
  · exact absurd rfl hne
  · simp only [likeLex]
    rw [if_neg h1]

theorem likeLex_single (c : Char) (h1 : c ≠ '\\') : likeLex [c] = [tokOf c] := by
  simp only [likeLex]
  rw [if_neg h1]

theorem tokOf_plain (c : Char) (h1 : c ≠ '%') (h2 : c ≠ '_') : tokOf c = .lit c := by
  unfold tokOf
  rw [if_neg h1, if_neg h2]

/-- Lexing `c ++ ['%']` for metacharacter-free `c` gives the literal
tokens of `c` followed by the wildcard. -/
theorem likeLex_plain_append (c : List Char) (hc : noMetaL c = true) :
    likeLex (c ++ ['%']) = c.map LikeTok.lit ++ [.any] := by
  induction c with
  | nil =>
    rw [List.nil_append, likeLex_single '%' (by decide)]
    rfl
  | cons p c2 ih =>
    have hmeta : (p ≠ '%' ∧ p ≠ '_' ∧ p ≠ '\\') ∧ noMetaL c2 = true := by
      have h := hc
      simp only [noMetaL, List.all_cons, Bool.and_eq_true, Bool.not_eq_true',
        Bool.or_eq_false_iff, beq_eq_false_iff_ne, ne_eq] at h
      exact ⟨⟨h.1.1.1, h.1.1.2, h.1.2⟩, h.2⟩
    rw [List.cons_append,
      likeLex_cons_ne p (c2 ++ ['%']) hmeta.1.2.2 (by simp),
      tokOf_plain p hmeta.1.1 hmeta.1.2.1, ih hmeta.2]
    rfl

theorem likeToksMatch_nil (t : List Char) : likeToksMatch [] t = t.isEmpty := rfl

theorem likeToksMatch_any (toks : List LikeTok) (t : List Char) :
    likeToksMatch (.any :: toks) t = t.tails.any (likeToksMatch toks) := rfl

theorem likeToksMatch_any_iff (toks : List LikeTok) (t : List Char) :
    likeToksMatch (.any :: toks) t = true ↔
      ∃ t2, t2 <:+ t ∧ likeToksMatch toks t2 = true := by
  rw [likeToksMatch_any, List.any_eq_true]
  constructor
  · rintro ⟨t2, ht2, hm⟩
    exact ⟨t2, (List.mem_tails t2 t).mp ht2, hm⟩
  · rintro ⟨t2, ht2, hm⟩
    exact ⟨t2, (List.mem_tails t2 t).mpr ht2, hm⟩

/-- The token list of a metacharacter-free fragment followed by `%`
matches exactly the texts the fragment is a prefix of. -/
theorem likeToksMatch_lits_starts (c : List Char) :
    ∀ t : List Char, likeToksMatch (c.map LikeTok.lit ++ [.any]) t = true ↔ c <+: t := by
  induction c with
  | nil =>
    intro t
    rw [List.map_nil, List.nil_append, likeToksMatch_any_iff]
    constructor
    · intro _
      exact List.nil_prefix
    · intro _
      exact ⟨[], List.nil_suffix, rfl⟩
  | cons p c2 ih =>
    intro t
    cases t with
    | nil =>
      constructor
      · intro h
        exact absurd h (by rw [show likeToksMatch ((p :: c2).map LikeTok.lit ++ [.any]) [] = false from rfl]; decide)
      · intro h
        exact absurd (List.prefix_nil.mp h) (by simp)
    | cons b ts =>
      have hstep : likeToksMatch ((p :: c2).map LikeTok.lit ++ [.any]) (b :: ts)
          = (decide (b = p) && likeToksMatch (c2.map LikeTok.lit ++ [.any]) ts) := rfl
      rw [hstep, Bool.and_eq_true, decide_eq_true_eq, List.cons_prefix_cons, ih ts]
      constructor
      · rintro ⟨h1, h2⟩
        exact ⟨h1.symm, h2⟩
      · rintro ⟨h1, h2⟩
        exact ⟨h1.symm, h2⟩

/-- The pattern `'%' || s || '%'` for a metacharacter-free `s` matches a
text exactly when `s` is a substring of it. -/
theorem likeMatch_substring_iff (c t : List Char) (hc : noMetaL c = true) :
    likeMatch ('%' :: (c ++ ['%'])) t = true ↔ c <:+: t := by
  unfold likeMatch
  rw [likeLex_cons_ne '%' (c ++ ['%']) (by decide) (by simp),
    show tokOf '%' = .any from rfl, likeLex_plain_append c hc, likeToksMatch_any_iff]
  constructor
  · rintro ⟨t2, hsuf, hm⟩
    exact List.infix_iff_prefix_suffix.mpr ⟨t2, (likeToksMatch_lits_starts c t2).mp hm, hsuf⟩
  · intro h
    rcases List.infix_iff_prefix_suffix.mp h with ⟨t2, hpre, hsuf⟩
    exact ⟨t2, hsuf, (likeToksMatch_lits_starts c t2).mpr hpre⟩

/-- For `1 ≤ page` the Python offset `(page-1)*page_size` is the
corresponding natural number. -/
theorem pageOffset_cast (page P : Nat) (hpage : 1 ≤ page) :
    ((page : Int) - 1) * (P : Int) = (((page - 1) * P : Nat) : Int) := by
  have h1 : ((page : Int) - 1) = (((page - 1 : Nat)) : Int) := by omega
  rw [h1, ← Nat.cast_mul]

theorem notes_eq (db : DB) (slug aid : String) (page P : Nat)
    (hauth : Inbox.auth_id db slug = .ok aid) (hpage : 1 ≤ page) (hP : 0 < P) :
    Inbox.notes db slug page P = .ok
      { notes := (((orderByTsDesc (activeRows db aid)).drop ((page - 1) * P)).take P).map (rowToListedNote slug),
        total_notes := (activeRows db aid).length,
        page := page,
        total_pages := ((activeRows db aid).length + P - 1) / P } := by
  simp only [Inbox.notes, hauth, pydiv_pos _ _ hP, bind, Except.bind,
    pageOffset_cast page P hpage]
  rw [if_neg (not_lt.mpr (Int.natCast_nonneg _)), Int.toNat_natCast]

theorem pageNotes_eq (db : DB) (slug aid : String) (page P : Nat)
    (hauth : Inbox.auth_id db slug = .ok aid) (hpage : 1 ≤ page) (hP : 0 < P) :
    pageNotes db slug page P
      = (((orderByTsDesc (activeRows db aid)).drop ((page - 1) * P)).take P).map (rowToListedNote slug) := by
  unfold pageNotes
  rw [notes_eq db slug aid page P hauth hpage hP]

theorem notes_pages_flatten (db : DB) (slug aid : String) (P : Nat)
    (hauth : Inbox.auth_id db slug = .ok aid) (hP : 0 < P) :
    ((List.range (((activeRows db aid).length + P - 1) / P)).map
      (fun i => pageNotes db slug (i + 1) P)).flatten
      = (orderByTsDesc (activeRows db aid)).map (rowToListedNote slug) := by
  have hmaplen : ((orderByTsDesc (activeRows db aid)).map (rowToListedNote slug)).length
      = (activeRows db aid).length := by
    rw [List.length_map, orderByTsDesc_length]
  have hmain := pages_concat P hP
    ((orderByTsDesc (activeRows db aid)).map (rowToListedNote slug)).length
    ((orderByTsDesc (activeRows db aid)).map (rowToListedNote slug)) le_rfl
  rw [hmaplen] at hmain
  rw [← hmain]
  congr 1
  apply List.map_congr_left
  intro i _
  rw [pageNotes_eq db slug aid (i + 1) P hauth (Nat.succ_le_succ (Nat.zero_le i)) hP]
  rw [show i + 1 - 1 = i from rfl, List.map_take, List.map_drop]

/-- Claim C2: `Inbox.notes(page, P)` pages with offset `(page-1)*P`,
reports `total_notes = N` (the number of non-archived rows of the inbox)
and `total_pages = (N + P - 1) / P = ceil(N / P)`, and concatenating pages
`1..total_pages` yields exactly the non-archived rows of the inbox
(a permutation of the filtered table, with distinct uuids) ordered by
timestamp descending. -/
theorem notes_pagination_correct (db : DB) (slug aid : String) (page P : Nat)
    (hauth : Inbox.auth_id db slug = .ok aid) (hpage : 1 ≤ page) (hP : 1 ≤ P)
    (hnodup : (db.notes.map NoteRow.uuid).Nodup) :
    Inbox.notes db slug page P = .ok
      { notes := (((orderByTsDesc (activeRows db aid)).drop ((page - 1) * P)).take P).map (rowToListedNote slug),
        total_notes := (activeRows db aid).length,
        page := page,
        total_pages := ((activeRows db aid).length + P - 1) / P }
    ∧ ((List.range (((activeRows db aid).length + P - 1) / P)).map
        (fun i => pageNotes db slug (i + 1) P)).flatten
        = (orderByTsDesc (activeRows db aid)).map (rowToListedNote slug)
    ∧ (orderByTsDesc (activeRows db aid)).Perm (activeRows db aid)
    ∧ (orderByTsDesc (activeRows db aid)).Pairwise (fun a b => b.timestamp ≤ a.timestamp)
    ∧ ((orderByTsDesc (activeRows db aid)).map NoteRow.uuid).Nodup := by
  refine ⟨notes_eq db slug aid page P hauth hpage hP, notes_pages_flatten db slug aid P hauth hP,
    orderByTsDesc_perm _, orderByTsDesc_sorted _, ?_⟩
  have hperm : ((orderByTsDesc (activeRows db aid)).map NoteRow.uuid).Perm
      ((activeRows db aid).map NoteRow.uuid) := (orderByTsDesc_perm _).map _
  rw [hperm.nodup_iff]
  have hsub : ((activeRows db aid).map NoteRow.uuid).Sublist (db.notes.map NoteRow.uuid) :=
    (List.filter_sublist _).map _
  exact hnodup.sublist hsub

theorem bool_eq_decide {b : Bool} {p : Prop} [Decidable p] (h : b = true ↔ p) : b = decide p := by
  cases b with
  | false =>
    symm
    rw [decide_eq_false_iff_not]
    intro hp
    have h2 := h.mpr hp
    exact Bool.false_ne_true h2
  | true =>
    symm
    rw [decide_eq_true_eq]
    exact h.mp rfl

theorem searchRows_eq_spec (db : DB) (aid s : String) (hmeta : noMetaL (sqlLower s) = true) :
    searchRows db aid s = specSearchRows db aid s := by
  unfold searchRows specSearchRows
  apply List.filter_congr
  intro r _
  have hb : likeMatch (sqlPattern s) (sqlLower r.body) = decide (containsCI s r.body) := by
    apply bool_eq_decide
    exact likeMatch_substring_iff (sqlLower s) (sqlLower r.body) hmeta
  have hbl : likeMatch (sqlPattern s) (sqlLower r.byline) = decide (containsCI s r.byline) := by
    apply bool_eq_decide
    exact likeMatch_substring_iff (sqlLower s) (sqlLower r.byline) hmeta
  rw [hb, hbl]

theorem search_notes_eq (db : DB) (slug aid s : String) (page P : Nat)
    (hauth : Inbox.auth_id db slug = .ok aid) (hpage : 1 ≤ page) (hP : 0 < P) :
    Inbox.search_notes db slug s page P = .ok
      { notes := (((orderByTsDesc (searchRows db aid s)).drop ((page - 1) * P)).take P).map
          (rowToListedNote slug),
        total_notes := if (((orderByTsDesc (searchRows db aid s)).drop ((page - 1) * P)).take P).isEmpty
          then 0 else (orderByTsDesc (searchRows db aid s)).length,
        page := page,
        total_pages := ((if (((orderByTsDesc (searchRows db aid s)).drop ((page - 1) * P)).take P).isEmpty
          then 0 else (orderByTsDesc (searchRows db aid s)).length) + P - 1) / P } := by
  simp only [Inbox.search_notes, hauth, pydiv_pos _ _ hP, bind, Except.bind,
    pageOffset_cast page P hpage]
  rw [if_neg (not_lt.mpr (Int.natCast_nonneg _)), Int.toNat_natCast]

/-- With `page = 0` and a positive page size the Python offset is
`-page_size`, and the select's negative `OFFSET` is rejected by the
database. -/
theorem notes_page0 (db : DB) (slug aid : String) (P : Nat)
    (hauth : Inbox.auth_id db slug = .ok aid) (hP : 1 ≤ P) :
    Inbox.notes db slug 0 P = .error .dbError := by
  have hneg : (((0 : Nat) : Int) - 1) * (P : Int) < 0 := by
    have h0 : (((0 : Nat) : Int) - 1) * (P : Int) = -(P : Int) := by
      push_cast
      ring
    rw [h0]
    omega
  simp only [Inbox.notes, hauth, bind, Except.bind]
  rw [if_pos hneg]

/-- The same negative-`OFFSET` rejection for `Inbox.search_notes`. -/
theorem search_notes_page0 (db : DB) (slug aid s : String) (P : Nat)
    (hauth : Inbox.auth_id db slug = .ok aid) (hP : 1 ≤ P) :
    Inbox.search_notes db slug s 0 P = .error .dbError := by
  have hneg : (((0 : Nat) : Int) - 1) * (P : Int) < 0 := by
    have h0 : (((0 : Nat) : Int) - 1) * (P : Int) = -(P : Int) := by
      push_cast
      ring
    rw [h0]
    omega
  simp only [Inbox.search_notes, hauth, bind, Except.bind]
  rw [if_pos hneg]

/-- Claim C3 (amended): for a search string free of `LIKE`
metacharacters, `Inbox.search_notes` returns only non-archived rows of
this inbox whose body or byline contains the string case-insensitively,
and reports `total_notes` equal to the size of the full filtered set
whenever the requested page is non-empty (an out-of-range page reports
`0`, as the counterexample shows). -/
theorem search_notes_filtered (db : DB) (slug aid s : String) (page P : Nat) (r : NotesPage)
    (hauth : Inbox.auth_id db slug = .ok aid)
    (hmeta : noMetaL (sqlLower s) = true)
    (hP : 1 ≤ P)
    (hr : Inbox.search_notes db slug s page P = .ok r) :
    r.notes = (((orderByTsDesc (specSearchRows db aid s)).drop ((page - 1) * P)).take P).map
        (rowToListedNote slug)
    ∧ (specSearchRows db aid s).all (fun row =>
        (decide (containsCI s row.body) || decide (containsCI s row.byline))
        && row.inboxes_auth_id == aid && !row.archived) = true
    ∧ r.total_notes = (if r.notes.isEmpty then 0 else (specSearchRows db aid s).length) := by
  rcases Nat.eq_zero_or_pos page with hpage0 | hpage
  · subst hpage0
    rw [search_notes_page0 db slug aid s P hauth hP] at hr
    exact absurd hr (by simp)
  rw [search_notes_eq db slug aid s page P hauth hpage hP, searchRows_eq_spec db aid s hmeta] at hr
  injection hr with h
  subst h
  refine ⟨rfl, ?_, ?_⟩
  · rw [List.all_eq_true]
    intro x hx
    exact (List.mem_filter.mp hx).2
  · show (if (((orderByTsDesc (specSearchRows db aid s)).drop ((page - 1) * P)).take P).isEmpty
      then 0 else (orderByTsDesc (specSearchRows db aid s)).length)
      = if ((((orderByTsDesc (specSearchRows db aid s)).drop ((page - 1) * P)).take P).map
          (rowToListedNote slug)).isEmpty then 0 else (specSearchRows db aid s).length
    rw [orderByTsDesc_length]
    congr 1
    cases (((orderByTsDesc (specSearchRows db aid s)).drop ((page - 1) * P)).take P) <;> rfl

theorem filter_uuid_nil (l : List NoteRow) (u : Nat)
    (h : l.all (fun r => r.uuid != u) = true) :
    l.filter (fun r => r.uuid == u) = [] := by
  rw [List.filter_eq_nil_iff]
  intro a ha
  rw [List.all_eq_true] at h
  have := h a ha
  simp only [bne_iff_ne, ne_eq] at this
  simp only [beq_iff_eq]
  exact this

/-- Claim C1 (amended): after a successful `Inbox.submit_note(body, byline)`,
`Note.fetch` on the returned note's uuid succeeds and yields a note whose
`body` and `byline` equal the submitted values; the persisted row's
`archived` flag is false.  (`fetch` itself leaves the in-memory `archived`
attribute unset, as the counterexample shows.) -/
theorem submit_then_fetch (db : DB) (slug body byline : String) (db2 : DB) (n : NoteObj)
    (hfresh : db.notes.all (fun r => r.uuid != db.nextUuid) = true)
    (hsub : Inbox.submit_note db slug body byline none = .ok (db2, n)) :
    n.uuid = some db.nextUuid
    ∧ Note.fetch db2 db.nextUuid = .ok
        { body := some body, byline := some byline, inbox := none, archived := none,
          uuid := some db.nextUuid, timestamp := none, audio_path := none }
    ∧ db2.notes.all (fun r => r.uuid != db.nextUuid || !r.archived) = true := by
  unfold Inbox.submit_note Note.store at hsub
  by_cases hA : db.hasAudioColumn
  · rw [if_pos hA, if_neg (by decide : ¬ (pyTruthy none = true))] at hsub
    simp only [bind, Except.bind] at hsub
    exact absurd hsub (by simp)
  · rw [if_neg hA] at hsub
    cases hauth : Inbox.auth_id db slug with
    | error e =>
      rw [hauth] at hsub
      simp only [bind, Except.bind] at hsub
      exact absurd hsub (by simp)
    | ok aid =>
      rw [hauth] at hsub
      simp only [bind, Except.bind] at hsub
      injection hsub with h
      rw [Prod.ext_iff] at h
      obtain ⟨h1, h2⟩ := h
      subst h1
      subst h2
      refine ⟨rfl, ?_, ?_⟩
      · unfold Note.fetch
        rw [List.filter_append, filter_uuid_nil db.notes db.nextUuid hfresh]
        simp only [List.nil_append, List.filter_cons, List.filter_nil, beq_self_eq_true,
          if_pos]
      · simp only [List.all_append, Bool.and_eq_true]
        constructor
        · rw [List.all_eq_true]
          intro x hx
          rw [List.all_eq_true] at hfresh
          have := hfresh x hx
          rw [Bool.or_eq_true]
          exact Or.inl this
        · rw [List.all_eq_true]
          intro x hx
          rw [List.mem_singleton] at hx
          subst hx
          simp

/-- Claim C4: a second `Inbox.store` with an already-registered slug (any
account id) does not raise, leaves the database — in particular the first
slug-to-auth_id-to-email mapping — unchanged, and returns a wrapper for
that slug which still resolves to the first `auth_id`. -/
theorem register_conflict_keeps_first (db : DB) (slug a2 e2 a1 : String)
    (hauth : Inbox.auth_id db slug = .ok a1) :
    Inbox.store db slug a2 e2 = (db, { slug := slug })
    ∧ Inbox.auth_id (Inbox.store db slug a2 e2).1 slug = .ok a1 := by
  have hconf : db.inboxes.any (fun r => r.slug == slug || r.auth_id == a2) = true := by
    unfold Inbox.auth_id at hauth
    cases hfil : db.inboxes.filter (fun r => r.slug == slug) with
    | nil =>
      rw [hfil] at hauth
      exact absurd hauth (by simp)
    | cons r rest =>
      have hr : r ∈ db.inboxes.filter (fun r => r.slug == slug) := by
        rw [hfil]
        exact List.mem_cons_self r rest
      have hm := List.mem_filter.mp hr
      rw [List.any_eq_true]
      refine ⟨r, hm.1, ?_⟩
      rw [Bool.or_eq_true]
      exact Or.inl hm.2
  have hstore : Inbox.store db slug a2 e2 = (db, { slug := slug }) := by
    unfold Inbox.store
    rw [if_pos hconf]
  refine ⟨hstore, ?_⟩
  rw [hstore]
  exact hauth

/-- Claim C5 (amended): `Note.fetch` on an identifier with no matching
stored note fails with the generic out-of-range `IndexError` from `r[0]`
— the source's signal for "not found" — rather than a distinct NotFound
condition. -/
theorem fetch_unknown_raises (db : DB) (u : Nat)
    (habsent : db.notes.all (fun r => r.uuid != u) = true) :
    Note.fetch db u = .error .indexError := by
  unfold Note.fetch
  rw [filter_uuid_nil db.notes u habsent]

/-- Claim C6: when the connection is in the aborted-transaction state,
`Inbox.is_enabled` and `Inbox.is_email_enabled` return `false` instead of
propagating the failure (for any slug); on a healthy connection they
return the stored boolean flags of the slug's row. -/
theorem flag_reads_degrade (dbF dbO : DB) (slugF slug : String) (row : InboxRow)
    (hF : dbF.inFailedTransaction = true)
    (hO : dbO.inFailedTransaction = false)
    (hrow : (dbO.inboxes.filter (fun r => r.slug == slug)).head? = some row) :
    Inbox.is_enabled dbF slugF = .ok false
    ∧ Inbox.is_email_enabled dbF slugF = .ok false
    ∧ Inbox.is_enabled dbO slug = .ok row.enabled
    ∧ Inbox.is_email_enabled dbO slug = .ok row.email_enabled := by
  have hOne : ¬ dbO.inFailedTransaction = true := by
    rw [hO]
    exact Bool.false_ne_true
  refine ⟨?_, ?_, ?_, ?_⟩
  · unfold Inbox.is_enabled
    rw [if_pos hF]
  · unfold Inbox.is_email_enabled
    rw [if_pos hF]
  · unfold Inbox.is_enabled
    rw [if_neg hOne]
    cases hfil : dbO.inboxes.filter (fun r => r.slug == slug) with
    | nil =>
      rw [hfil] at hrow
      exact absurd hrow (by simp)
    | cons r rest =>
      rw [hfil] at hrow
      simp only [List.head?_cons, Option.some.injEq] at hrow
      rw [hrow]
  · unfold Inbox.is_email_enabled
    rw [if_neg hOne]
    cases hfil : dbO.inboxes.filter (fun r => r.slug == slug) with
    | nil =>
      rw [hfil] at hrow
      exact absurd hrow (by simp)
    | cons r rest =>
      rw [hfil] at hrow
      simp only [List.head?_cons, Option.some.injEq] at hrow
      rw [hrow]

/-- Claim C7 (amended): `Note.store` branches on the schema probe for the
audio column and on Python truthiness of the audio path: column present
and a truthy (non-empty) audio path — inserts the row including the audio
field; column absent — inserts without it; column present but a falsy
audio path (`None` or the empty string) — inserts nothing and raises the
unbound-local error to the caller (the drop is not silent, as the
counterexample shows). -/
theorem store_audio_branches (db1 db2 : DB) (slug body byline p : String) (aid1 aid2 : String)
    (ap : Option String)
    (h1 : db1.hasAudioColumn = true) (h2 : db2.hasAudioColumn = false)
    (hp : p ≠ "")
    (ha1 : Inbox.auth_id db1 slug = .ok aid1) (ha2 : Inbox.auth_id db2 slug = .ok aid2) :
    Note.store db1 slug body byline (some p) = .ok
      ({ db1 with
          notes := db1.notes ++ [storedRow db1 body byline aid1 (some p)],
          nextUuid := db1.nextUuid + 1 }, db1.nextUuid)
    ∧ Note.store db1 slug body byline none = .error .unboundLocalError
    ∧ Note.store db1 slug body byline (some "") = .error .unboundLocalError
    ∧ Note.store db2 slug body byline ap = .ok
      ({ db2 with
          notes := db2.notes ++ [storedRow db2 body byline aid2 none],
          nextUuid := db2.nextUuid + 1 }, db2.nextUuid) := by
  have h2ne : ¬ db2.hasAudioColumn = true := by
    rw [h2]
    exact Bool.false_ne_true
  have htru : pyTruthy (some p) = true := by
    simp only [pyTruthy, Bool.not_eq_true']
    rw [beq_eq_false_iff_ne]
    exact hp
  refine ⟨?_, ?_, ?_, ?_⟩
  · unfold Note.store
    rw [if_pos h1, if_pos htru]
    simp only [bind, Except.bind, ha1, storedRow]
  · unfold Note.store
    rw [if_pos h1, if_neg (by decide : ¬ (pyTruthy none = true))]
  · unfold Note.store
    rw [if_pos h1, if_neg (by decide : ¬ (pyTruthy (some "") = true))]
  · unfold Note.store
    rw [if_neg h2ne]
    simp only [bind, Except.bind, ha2, storedRow]

/-- Claim C8: `Inbox.archived_notes` returns exactly the archived rows of
the inbox (wrapped, a reversal of the selected rows), ordered
most-recent-first when row insertion order follows the storage-assigned
timestamps, and never includes a note whose archived flag is false. -/
theorem archived_notes_correct (db : DB) (slug aid : String)
    (hauth : Inbox.auth_id db slug = .ok aid)
    (hts : db.notes.Pairwise (fun a b => a.timestamp ≤ b.timestamp)) :
    Inbox.archived_notes db slug = .ok (((archivedRows db aid).map (rowToArchivedNote slug)).reverse)
    ∧ ((archivedRows db aid).reverse).Pairwise (fun a b => b.timestamp ≤ a.timestamp)
    ∧ ((archivedRows db aid).reverse).Perm (archivedRows db aid)
    ∧ (archivedRows db aid).all (fun r => r.archived) = true
    ∧ (((archivedRows db aid).map (rowToArchivedNote slug)).reverse).all
        (fun n => n.archived == some true) = true := by
  refine ⟨?_, ?_, List.reverse_perm _, ?_, ?_⟩
  · unfold Inbox.archived_notes
    simp only [bind, Except.bind, hauth]
  · rw [List.pairwise_reverse]
    have hsub : (archivedRows db aid).Sublist db.notes := List.filter_sublist _
    exact hts.sublist hsub
  · rw [List.all_eq_true]
    intro r hr
    have hm := (List.mem_filter.mp hr).2
    rw [Bool.and_eq_true] at hm
    exact hm.2
  · rw [List.all_eq_true]
    intro n hn
    rw [List.mem_reverse, List.mem_map] at hn
    obtain ⟨r, hr, hrn⟩ := hn
    have hm := (List.mem_filter.mp hr).2
    rw [Bool.and_eq_true] at hm
    subst hrn
    simp only [rowToArchivedNote, Note.from_inbox, hm.2]
    rfl

/-- Claim C9: `Inbox.enable_account` / `Inbox.disable_account` change only
the `enabled` flag of the rows with the given slug: the notes table and
every row's slug, auth_id, email and email_enabled are untouched, rows
with a different slug keep their `enabled` value, and the targeted rows
end up with the requested flag. -/
theorem account_toggle_only_enabled (db : DB) (slug : String) :
    (Inbox.enable_account db slug).notes = db.notes
    ∧ (Inbox.disable_account db slug).notes = db.notes
    ∧ (Inbox.enable_account db slug).inboxes.map inboxFrame = db.inboxes.map inboxFrame
    ∧ (Inbox.disable_account db slug).inboxes.map inboxFrame = db.inboxes.map inboxFrame
    ∧ (Inbox.enable_account db slug).inboxes.map (fun r => if r.slug == slug then true else r.enabled)
        = db.inboxes.map (fun r => if r.slug == slug then true else r.enabled)
    ∧ (Inbox.disable_account db slug).inboxes.map (fun r => if r.slug == slug then false else r.enabled)
        = db.inboxes.map (fun r => if r.slug == slug then false else r.enabled)
    ∧ ((Inbox.enable_account db slug).inboxes.filter (fun r => r.slug == slug)).all
        (fun r => r.enabled) = true
    ∧ ((Inbox.disable_account db slug).inboxes.filter (fun r => r.slug == slug)).all
        (fun r => !r.enabled) = true := by
  refine ⟨rfl, rfl, ?_, ?_, ?_, ?_, ?_, ?_⟩
  · unfold Inbox.enable_account
    simp only [List.map_map]
    apply List.map_congr_left
    intro r _
    by_cases h : r.slug == slug
    · simp [Function.comp, h, inboxFrame]
    · simp [Function.comp, h]
  · unfold Inbox.disable_account
    simp only [List.map_map]
    apply List.map_congr_left
    intro r _
    by_cases h : r.slug == slug
    · simp [Function.comp, h, inboxFrame]
    · simp [Function.comp, h]
  · unfold Inbox.enable_account
    simp only [List.map_map]
    apply List.map_congr_left
    intro r _
    by_cases h : r.slug == slug
    · simp [Function.comp, h]
    · simp [Function.comp, h]
  · unfold Inbox.disable_account
    simp only [List.map_map]
    apply List.map_congr_left
    intro r _
    by_cases h : r.slug == slug
    · simp [Function.comp, h]
    · simp [Function.comp, h]
  · rw [List.all_eq_true]
    intro r hr
    have hm := List.mem_filter.mp hr
    obtain ⟨hmem, hslug⟩ := hm
    unfold Inbox.enable_account at hmem
    simp only [List.mem_map] at hmem
    obtain ⟨x, _, hx⟩ := hmem
    by_cases h : x.slug == slug
    · rw [if_pos h] at hx
      rw [← hx]
    · rw [if_neg h] at hx
      rw [← hx] at hslug
      exact absurd hslug h
  · rw [List.all_eq_true]
    intro r hr
    have hm := List.mem_filter.mp hr
    obtain ⟨hmem, hslug⟩ := hm
    unfold Inbox.disable_account at hmem
    simp only [List.mem_map] at hmem
    obtain ⟨x, _, hx⟩ := hmem
    by_cases h : x.slug == slug
    · rw [if_pos h] at hx
      rw [← hx]
      rfl
    · rw [if_neg h] at hx
      rw [← hx] at hslug
      exact absurd hslug h

/-- Claim C10: `Inbox.notes` and `Inbox.search_notes` validate neither
`page` nor `page_size`: with `page_size = 0` the `total_pages` computation
divides by zero and the call fails with `ZeroDivisionError` (for every
page, since the offset `(page-1)*0` is `0`); with `page = 0` the negative
SQL `OFFSET` reaches the database and is rejected there; a 1-based page
with `page_size ≥ 1` returns a result. -/
theorem page_size_zero_fails (db : DB) (slug aid s : String) (page P : Nat)
    (hauth : Inbox.auth_id db slug = .ok aid) (hpage : 1 ≤ page) (hP : 1 ≤ P) :
    Inbox.notes db slug page 0 = .error .zeroDivisionError
    ∧ Inbox.search_notes db slug s page 0 = .error .zeroDivisionError
    ∧ (Inbox.notes db slug page P).isOk = true
    ∧ (Inbox.search_notes db slug s page P).isOk = true
    ∧ Inbox.notes db slug 0 P = .error .dbError
    ∧ Inbox.search_notes db slug s 0 P = .error .dbError := by
  refine ⟨?_, ?_, ?_, ?_, notes_page0 db slug aid P hauth hP,
    search_notes_page0 db slug aid s P hauth hP⟩
  · simp [Inbox.notes, hauth, bind, Except.bind, pydiv]
  · simp [Inbox.search_notes, hauth, bind, Except.bind, pydiv]
  · rw [notes_eq db slug aid page P hauth hpage hP]
    rfl
  · rw [search_notes_eq db slug aid s page P hauth hpage hP]
    rfl

/-! ### Witnesses and counterexamples on the sample data -/

/-- Claim C1 counterexample to the claim as stated: the note yielded by
`fetch` after a submission has its `archived` attribute unset (`None`),
not `False` — `fetch` populates only `body`, `byline` and `uuid`. -/
theorem submit_fetch_archived_counterexample :
    Inbox.submit_note sampleDB "alice" "hello" "zed" none = .ok (submitDB, submitNote)
    ∧ Note.fetch submitDB 5 = .ok
        { body := some "hello", byline := some "zed", inbox := none, archived := none,
          uuid := some 5, timestamp := none, audio_path := none }
    ∧ ({ body := some "hello", byline := some "zed", inbox := none, archived := none,
         uuid := some 5, timestamp := none, audio_path := none } : NoteObj).archived
        ≠ some false :=
  ⟨by decide, by decide, by decide⟩

/-- Claim C1 witness: the amended round trip at a concrete database. -/
theorem submit_then_fetch_witness :
    (sampleDB.notes.all (fun r => r.uuid != sampleDB.nextUuid) = true
      ∧ Inbox.submit_note sampleDB "alice" "hello" "zed" none = .ok (submitDB, submitNote))
    ∧ (submitNote.uuid = some sampleDB.nextUuid
      ∧ Note.fetch submitDB sampleDB.nextUuid = .ok
          { body := some "hello", byline := some "zed", inbox := none, archived := none,
            uuid := some sampleDB.nextUuid, timestamp := none, audio_path := none }
      ∧ submitDB.notes.all (fun r => r.uuid != sampleDB.nextUuid || !r.archived) = true) :=
  ⟨⟨by decide, by decide⟩,
   submit_then_fetch sampleDB "alice" "hello" "zed" submitDB submitNote (by decide) (by decide)⟩

/-- Claim C2 witness: pagination at a concrete database, page 1 of size 2
over three active notes. -/
theorem notes_pagination_correct_witness :
    (Inbox.auth_id sampleDB "alice" = .ok "a1" ∧ 1 ≤ 1 ∧ 1 ≤ 2
      ∧ (sampleDB.notes.map NoteRow.uuid).Nodup)
    ∧ (Inbox.notes sampleDB "alice" 1 2 = .ok
        { notes := (((orderByTsDesc (activeRows sampleDB "a1")).drop ((1 - 1) * 2)).take 2).map
            (rowToListedNote "alice"),
          total_notes := (activeRows sampleDB "a1").length,
          page := 1,
          total_pages := ((activeRows sampleDB "a1").length + 2 - 1) / 2 }
      ∧ ((List.range (((activeRows sampleDB "a1").length + 2 - 1) / 2)).map
          (fun i => pageNotes sampleDB "alice" (i + 1) 2)).flatten
          = (orderByTsDesc (activeRows sampleDB "a1")).map (rowToListedNote "alice")
      ∧ (orderByTsDesc (activeRows sampleDB "a1")).Perm (activeRows sampleDB "a1")
      ∧ (orderByTsDesc (activeRows sampleDB "a1")).Pairwise (fun a b => b.timestamp ≤ a.timestamp)
      ∧ ((orderByTsDesc (activeRows sampleDB "a1")).map NoteRow.uuid).Nodup) :=
  ⟨⟨by decide, by decide, by decide, by decide⟩,
   notes_pagination_correct sampleDB "alice" "a1" 1 2 (by decide) (by decide) (by decide)
     (by decide)⟩

/-- Claim C3 counterexample to the claim as stated: the search string is
handed to SQL `LIKE` unescaped, so `_` in `"x_z"` acts as a wildcard and
the search returns a note that does not contain `"x_z"` at all; and an
out-of-range page reports `total_notes = 0` although the filtered set for
`"abc"` has one note. -/
theorem search_notes_counterexample :
    Inbox.search_notes sampleDB "alice" "x_z" 1 10
      = .ok { notes := [rowToListedNote "alice" noteRow2], total_notes := 1,
              page := 1, total_pages := 1 }
    ∧ ¬ containsCI "x_z" noteRow2.body
    ∧ ¬ containsCI "x_z" noteRow2.byline
    ∧ Inbox.search_notes sampleDB "alice" "abc" 2 1
      = .ok { notes := [], total_notes := 0, page := 2, total_pages := 0 }
    ∧ (specSearchRows sampleDB "a1" "abc").length = 1 :=
  ⟨by decide, by decide, by decide, by decide, by decide⟩

/-- Claim C3 witness: the amended search contract at a concrete database
(search term "abc" matches the byline-insensitive body "old ABCDEF"). -/
theorem search_notes_filtered_witness :
    (Inbox.auth_id sampleDB "alice" = .ok "a1"
      ∧ noMetaL (sqlLower "abc") = true
      ∧ 1 ≤ 10
      ∧ Inbox.search_notes sampleDB "alice" "abc" 1 10 = .ok
          { notes := [rowToListedNote "alice" noteRow3], total_notes := 1,
            page := 1, total_pages := 1 })
    ∧ (({ notes := [rowToListedNote "alice" noteRow3], total_notes := 1,
          page := 1, total_pages := 1 } : NotesPage).notes
        = (((orderByTsDesc (specSearchRows sampleDB "a1" "abc")).drop ((1 - 1) * 10)).take 10).map
            (rowToListedNote "alice")
      ∧ (specSearchRows sampleDB "a1" "abc").all (fun row =>
          (decide (containsCI "abc" row.body) || decide (containsCI "abc" row.byline))
          && row.inboxes_auth_id == "a1" && !row.archived) = true
      ∧ ({ notes := [rowToListedNote "alice" noteRow3], total_notes := 1,
           page := 1, total_pages := 1 } : NotesPage).total_notes
          = (if ({ notes := [rowToListedNote "alice" noteRow3], total_notes := 1,
                   page := 1, total_pages := 1 } : NotesPage).notes.isEmpty then 0
             else (specSearchRows sampleDB "a1" "abc").length)) :=
  ⟨⟨by decide, by decide, by decide, by decide⟩,
   search_notes_filtered sampleDB "alice" "a1" "abc" 1 10
     { notes := [rowToListedNote "alice" noteRow3], total_notes := 1,
       page := 1, total_pages := 1 }
     (by decide) (by decide) (by decide) (by decide)⟩

/-- Claim C4 witness: re-registering the taken slug "alice" under a
different account id changes nothing and still resolves to "a1". -/
theorem register_conflict_keeps_first_witness :
    Inbox.auth_id sampleDB "alice" = .ok "a1"
    ∧ (Inbox.store sampleDB "alice" "other-account" "other@example.com"
        = (sampleDB, { slug := "alice" })
      ∧ Inbox.auth_id (Inbox.store sampleDB "alice" "other-account" "other@example.com").1 "alice"
        = .ok "a1") :=
  ⟨by decide,
   register_conflict_keeps_first sampleDB "alice" "other-account" "other@example.com" "a1"
     (by decide)⟩

/-- Claim C5 counterexample to the claim as stated: the failure on an
unknown identifier is the generic IndexError, not a NotFound condition. -/
theorem fetch_unknown_counterexample :
    Note.fetch sampleDB 99 = .error .indexError
    ∧ Note.fetch sampleDB 99 ≠ .error .notFound :=
  ⟨by decide, by decide⟩

/-- Claim C5 witness: fetching an absent identifier at a concrete
database. -/
theorem fetch_unknown_raises_witness :
    sampleDB.notes.all (fun r => r.uuid != 99) = true
    ∧ Note.fetch sampleDB 99 = .error .indexError :=
  ⟨by decide, fetch_unknown_raises sampleDB 99 (by decide)⟩

/-- Claim C6 witness: the aborted-transaction store degrades both flag
reads to false; the healthy store reports the stored flags (here
`enabled = true`, `email_enabled = false`). -/
theorem flag_reads_degrade_witness :
    (failedDB.inFailedTransaction = true ∧ sampleDB.inFailedTransaction = false
      ∧ (sampleDB.inboxes.filter (fun r => r.slug == "alice")).head? = some aliceRow)
    ∧ (Inbox.is_enabled failedDB "alice" = .ok false
      ∧ Inbox.is_email_enabled failedDB "alice" = .ok false
      ∧ Inbox.is_enabled sampleDB "alice" = .ok aliceRow.enabled
      ∧ Inbox.is_email_enabled sampleDB "alice" = .ok aliceRow.email_enabled) :=
  ⟨⟨by decide, by decide, by decide⟩,
   flag_reads_degrade failedDB sampleDB "alice" "alice" aliceRow (by decide) (by decide)
     (by decide)⟩

/-- Claim C7 counterexample to the claim as stated: with the audio column
present and no audio path supplied, the note is not inserted, but the
failure is not silent — an unbound-local error reaches the caller. -/
theorem store_missing_audio_counterexample :
    Note.store audioDB "alice" "note body" "writer" none = .error .unboundLocalError :=
  by decide

/-- Claim C7 witness: the store branches at concrete databases with and
without the audio column, including the falsy empty-string audio path. -/
theorem store_audio_branches_witness :
    (audioDB.hasAudioColumn = true ∧ sampleDB.hasAudioColumn = false
      ∧ "v.webm" ≠ ""
      ∧ Inbox.auth_id audioDB "alice" = .ok "a1" ∧ Inbox.auth_id sampleDB "alice" = .ok "a1")
    ∧ (Note.store audioDB "alice" "note body" "writer" (some "v.webm") = .ok
        ({ audioDB with
            notes := audioDB.notes ++ [storedRow audioDB "note body" "writer" "a1" (some "v.webm")],
            nextUuid := audioDB.nextUuid + 1 }, audioDB.nextUuid)
      ∧ Note.store audioDB "alice" "note body" "writer" none = .error .unboundLocalError
      ∧ Note.store audioDB "alice" "note body" "writer" (some "") = .error .unboundLocalError
      ∧ Note.store sampleDB "alice" "note body" "writer" (some "v.webm") = .ok
        ({ sampleDB with
            notes := sampleDB.notes ++ [storedRow sampleDB "note body" "writer" "a1" none],
            nextUuid := sampleDB.nextUuid + 1 }, sampleDB.nextUuid)) :=
  ⟨⟨by decide, by decide, by decide, by decide, by decide⟩,
   store_audio_branches audioDB sampleDB "alice" "note body" "writer" "v.webm" "a1" "a1"
     (some "v.webm") (by decide) (by decide) (by decide) (by decide) (by decide)⟩

/-- Claim C8 witness: archived notes of a store whose insertion order
follows the timestamps come back most-recent-first and all archived. -/
theorem archived_notes_correct_witness :
    (Inbox.auth_id tsDB "alice" = .ok "a1"
      ∧ tsDB.notes.Pairwise (fun a b => a.timestamp ≤ b.timestamp))
    ∧ (Inbox.archived_notes tsDB "alice"
        = .ok (((archivedRows tsDB "a1").map (rowToArchivedNote "alice")).reverse)
      ∧ ((archivedRows tsDB "a1").reverse).Pairwise (fun a b => b.timestamp ≤ a.timestamp)
      ∧ ((archivedRows tsDB "a1").reverse).Perm (archivedRows tsDB "a1")
      ∧ (archivedRows tsDB "a1").all (fun r => r.archived) = true
      ∧ (((archivedRows tsDB "a1").map (rowToArchivedNote "alice")).reverse).all
          (fun n => n.archived == some true) = true) :=
  ⟨⟨by decide, by decide⟩,
   archived_notes_correct tsDB "alice" "a1" (by decide) (by decide)⟩

/-- Claim C10 witness: `page_size = 0` fails with the division error,
`page = 0` fails with the database's negative-offset rejection, and
page 1 of size 3 succeeds, at a concrete database. -/
theorem page_size_zero_fails_witness :
    (Inbox.auth_id sampleDB "alice" = .ok "a1" ∧ 1 ≤ 1 ∧ 1 ≤ 3)
    ∧ (Inbox.notes sampleDB "alice" 1 0 = .error .zeroDivisionError
      ∧ Inbox.search_notes sampleDB "alice" "abc" 1 0 = .error .zeroDivisionError
      ∧ (Inbox.notes sampleDB "alice" 1 3).isOk = true
      ∧ (Inbox.search_notes sampleDB "alice" "abc" 1 3).isOk = true
      ∧ Inbox.notes sampleDB "alice" 0 3 = .error .dbError
      ∧ Inbox.search_notes sampleDB "alice" "abc" 0 3 = .error .dbError) :=
  ⟨⟨by decide, by decide, by decide⟩,
   page_size_zero_fails sampleDB "alice" "a1" "abc" 1 3 (by decide) (by decide) (by decide)⟩
